import Mathlib

/-!
Verification of the detection-session behaviour of `src/app_streamlit.py`.

The script is a single Streamlit page: it loads a YOLO model once
(`load_yolo_model`, cached with `st.cache_resource`), and on every rerun
it processes the current widget values — the uploaded file, the
confidence slider and the detect button — emitting UI events
(`st.error`, `st.info`, `st.success`, `st.image`) and updating
`st.session_state['uploaded_image']`.

We embed one rerun of the script body as a total function `runScript`
from an explicit `RerunInput` to a `ScriptOutput` holding the ordered
list of emitted UI events, the final session state, and whether
`model.predict` was invoked.  The external collaborators (PIL decoding,
`YOLO(...)` construction, `model.predict`) are passed in as oracle
values in the input, exactly where the Python code calls them inside
`try`/`except`.  The Model Provider's thresholding contract, which lives
in the external `ultralytics` library, is modelled from the spec
separately (`providerPredict`).
-/

/-- A decoded pixel buffer (PIL image).  Opaque to the script except for
being storable, displayable and drawable-upon. -/
structure Image where
  data : List Nat
  deriving DecidableEq, Repr

/-- One detection: bounding box, class label index and confidence score.
Scores and coordinates are rationals (the slider granularity is 0.01, so
every threshold is an exact decimal). -/
structure Detection where
  box : ℚ × ℚ × ℚ × ℚ
  cls : Nat
  score : ℚ
  deriving DecidableEq, Repr

/-- One element of the list returned by `model.predict` (an ultralytics
`Results` object): its `boxes` attribute may be `None`. -/
structure ResultItem where
  boxes : Option (List Detection)
  deriving DecidableEq, Repr

/-- Modelled from the spec: drawing one Detection's box and label onto
an image (`results[0].plot()` lives in the external ultralytics
library).  The box and label are rendered into the pixel buffer. -/
def drawDetection (img : Image) (d : Detection) : Image :=
  { data := img.data ++ [d.cls, d.score.num.natAbs, d.score.den] }

/-- Modelled from the spec: "renders the Annotated Image by drawing each
Detection's box and label onto a copy of the Uploaded Image"
(`results[0].plot()` in the source, external library code). -/
def drawDetections (img : Image) (dets : List Detection) : Image :=
  dets.foldl drawDetection img

/-- Modelled from the spec: the Model Provider's inference operation
"accepts an image and a confidence threshold and returns a sequence of
(box, label, score) tuples where score ≥ threshold for every returned
element".  A provider model carries its raw detections per image;
`model.predict(source, conf)` keeps exactly those with score ≥ conf. -/
structure ProviderModel where
  raw : Image → List Detection

/-- Modelled from the spec: `model.predict(source=image, conf=t)` —
one image in, a one-element result list out, whose boxes are the raw
detections of the image filtered to score ≥ t. -/
def providerPredict (m : ProviderModel) (img : Image) (conf : ℚ) : List ResultItem :=
  [{ boxes := some ((m.raw img).filter (fun d => conf ≤ d.score)) }]

/-- Number of detections the provider returns for `img` at threshold
`conf` (the Detection Count of a successful call). -/
def detectionCount (m : ProviderModel) (img : Image) (conf : ℚ) : Nat :=
  ((m.raw img).filter (fun d => conf ≤ d.score)).length

/-- The environment at process start: whether `os.path.exists` holds for
a path, and what the external `YOLO(path)` constructor does (returns a
model or raises). -/
structure Env where
  pathExists : String → Bool
  yoloNew : String → Except String ProviderModel

/-- Source constant `MODEL_PATH = 'yolo11n.pt'` (src line 8). -/
def MODEL_PATH : String := "yolo11n.pt"

/-- Source constant `DEFAULT_CONFIDENCE = 0.25` (src line 9). -/
def DEFAULT_CONFIDENCE : ℚ := 25 / 100

/-- The message produced at src line 149 when the model file is missing. -/
def missingModelMsg (path : String) : String :=
  "错误：模型文件 '" ++ path ++ "' 未找到。请检查路径。"

/-- The message produced at src line 154 when `YOLO(path)` raises `e`. -/
def loadFailedMsg (e : String) : String :=
  "模型加载失败: " ++ e ++ "。请检查Ultralytics安装和模型文件有效性。"

/-- Function `load_yolo_model` (src lines 143–154): returns `(model, error)`.
If the path does not exist, `(None, message)`; otherwise `YOLO(path)`
inside `try`, returning `(model, None)` on success and
`(None, message)` when the constructor raises. -/
def load_yolo_model (env : Env) (model_path : String) :
    Option ProviderModel × Option String :=
  if env.pathExists model_path = false then
    (none, some (missingModelMsg model_path))
  else
    match env.yoloNew model_path with
    | Except.ok m => (some m, none)
    | Except.error e => (none, some (loadFailedMsg e))

/-- A UI event the script emits during one rerun. -/
inductive UIEvent where
  /-- Event `st.error` for the model-load failure (src line 171). -/
  | modelLoadError (msg : String)
  /-- Event `st.warning` that detection is unavailable (src line 172). -/
  | modelLoadWarning
  /-- Event `st.error` when `PIL.Image.open` raises (src line 208). -/
  | uploadError (msg : String)
  /-- Event `st.image` showing the uploaded image (src line 213). -/
  | showUploadedImage (img : Image)
  /-- Event `st.success` reporting the detection count (src line 237). -/
  | successCount (n : Nat)
  /-- Event `st.image` showing the annotated image (src line 238). -/
  | showAnnotated (img : Image)
  /-- Event `st.info` "未检测到目标。" — the empty-result indicator (src line 240). -/
  | infoNoDetect
  /-- Event `st.error` when `model.predict` raises (src line 242). -/
  | detectError (msg : String)
  /-- Event `st.info` asking for an upload (src line 248). -/
  | infoPleaseUpload
  deriving DecidableEq, Repr

/-- True exactly on the `st.error` events (the error indicators). -/
def UIEvent.isError : UIEvent → Bool
  | UIEvent.modelLoadError _ => true
  | UIEvent.uploadError _ => true
  | UIEvent.detectError _ => true
  | _ => false

/-- The value of `st.session_state` restricted to the one key the script
uses: `none` = key absent, `some none` = key set to Python `None`,
`some (some img)` = an uploaded image is stored. -/
abbrev SessionState := Option (Option Image)

/-- The widget values and external-call outcomes of one script rerun:
the prior session state, what the file uploader holds (`none` = no
file; otherwise the result of `PIL.Image.open` on it), the confidence
slider, whether the detect button reports a click, and what
`model.predict` does if invoked. -/
structure RerunInput where
  session : SessionState
  uploadedFile : Option (Except String Image)
  confidence : ℚ
  detectButton : Bool
  predictOutcome : Except String (List ResultItem)

/-- What one rerun produced: the ordered UI events, the final session
state, and whether `model.predict` was actually invoked. -/
structure ScriptOutput where
  events : List UIEvent
  finalSession : SessionState
  predictCalled : Bool
  deriving DecidableEq, Repr

/-- The message built at src line 208 from the decode exception. -/
def uploadErrorMsg (e : String) : String :=
  "**图片加载失败！** 错误详情: " ++ e

/-- The message built at src line 242 from the predict exception. -/
def detectErrorMsg (e : String) : String :=
  "**检测过程中发生错误！** 错误详情：" ++ e

/-- The detection-result block (src lines 228–242): the `try` around
`model.predict`.  Returns the emitted events; `model.predict` is always
invoked upon entering this block. -/
def detectBlock (img : Image) (outcome : Except String (List ResultItem)) :
    List UIEvent :=
  match outcome with
  | Except.error e => [UIEvent.detectError (detectErrorMsg e)]
  | Except.ok results =>
    match results with
    | [] => [UIEvent.infoNoDetect]
    | r :: _ =>
      match r.boxes with
      | none => [UIEvent.infoNoDetect]
      | some bs =>
        if bs.length > 0 then
          [UIEvent.successCount bs.length,
           UIEvent.showAnnotated (drawDetections img bs)]
        else
          [UIEvent.infoNoDetect]

/-- One rerun of the script body below the model load (src lines
157–249), given the cached `(model, error)` pair and the rerun input.
Mirrors the source control flow: the load-status block (lines 170–174),
the `if model:` gate (line 177), the upload `try`/`except` (lines
203–209), the stored-image check (line 211), the detect button (lines
219–243) and the no-file branch (lines 247–248). -/
def runScript (loadRes : Option ProviderModel × Option String)
    (inp : RerunInput) : ScriptOutput :=
  let loadEvents : List UIEvent :=
    match loadRes.2 with
    | some msg => [UIEvent.modelLoadError msg, UIEvent.modelLoadWarning]
    | none => []
  match loadRes.1 with
  | none =>
    { events := loadEvents, finalSession := inp.session, predictCalled := false }
  | some _ =>
    match inp.uploadedFile with
    | none =>
      { events := loadEvents ++ [UIEvent.infoPleaseUpload],
        finalSession := inp.session, predictCalled := false }
    | some decodeRes =>
      let step :
          SessionState × List UIEvent :=
        match decodeRes with
        | Except.ok img => (some (some img), [])
        | Except.error e => (some none, [UIEvent.uploadError (uploadErrorMsg e)])
      match step.1 with
      | some (some img) =>
        if inp.detectButton then
          { events := loadEvents ++ step.2 ++ [UIEvent.showUploadedImage img]
              ++ detectBlock img inp.predictOutcome,
            finalSession := step.1, predictCalled := true }
        else
          { events := loadEvents ++ step.2 ++ [UIEvent.showUploadedImage img],
            finalSession := step.1, predictCalled := false }
      | _ =>
        { events := loadEvents ++ step.2,
          finalSession := step.1, predictCalled := false }

/-- One rerun where `model.predict` behaves as the spec's Model Provider
contract: on a decoded image `img` and slider value `conf`, the predict
outcome is `providerPredict m img conf`. -/
def runWithProvider (m : ProviderModel) (session : SessionState)
    (img : Image) (conf : ℚ) (detectButton : Bool) : ScriptOutput :=
  runScript (some m, none)
    { session := session, uploadedFile := some (Except.ok img),
      confidence := conf, detectButton := detectButton,
      predictOutcome := Except.ok (providerPredict m img conf) }

/-- The detection count one rerun reported: the argument of the
`st.success` message if one was emitted, 0 otherwise (the empty-result
indicator reports no number). -/
def reportedCount (out : ScriptOutput) : Nat :=
  (out.events.filterMap (fun e =>
    match e with
    | UIEvent.successCount n => some n
    | _ => none)).headD 0

/-- The whole process: `load_yolo_model` runs once (it is cached with
`st.cache_resource`) and every rerun reuses the cached pair. -/
def processOutputs (env : Env) (inputs : List RerunInput) : List ScriptOutput :=
  inputs.map (runScript (load_yolo_model env MODEL_PATH))

/-! ## Helper lemmas -/

/-- The raw detections filtered at a higher threshold form a sublist of
those filtered at a lower one, so the count can only shrink. -/
theorem detectionCount_antitone (m : ProviderModel) (img : Image)
    (t1 t2 : ℚ) (h : t1 ≤ t2) :
    detectionCount m img t2 ≤ detectionCount m img t1 := by
  unfold detectionCount
  refine List.Sublist.length_le ?_
  refine List.monotone_filter_right _ ?_
  intro d hd
  simp only [decide_eq_true_eq] at hd ⊢
  exact le_trans h hd

/-- The event list of a provider-contract rerun with the button pressed:
the uploaded image is shown, then either the success pair or the
empty-result indicator. -/
theorem runWithProvider_events (m : ProviderModel) (s : SessionState)
    (img : Image) (conf : ℚ) :
    (runWithProvider m s img conf true).events =
      UIEvent.showUploadedImage img ::
        (if 0 < detectionCount m img conf then
          [UIEvent.successCount (detectionCount m img conf),
           UIEvent.showAnnotated
             (drawDetections img ((m.raw img).filter (fun d => conf ≤ d.score)))]
        else [UIEvent.infoNoDetect]) := by
  unfold runWithProvider runScript detectBlock providerPredict detectionCount
  simp only []
  by_cases h : 0 < ((m.raw img).filter (fun d => conf ≤ d.score)).length
  · simp [h]
  · simp [h]

/-- The reported count of a provider-contract rerun is exactly the
provider's detection count. -/
theorem reportedCount_runWithProvider (m : ProviderModel) (s : SessionState)
    (img : Image) (conf : ℚ) :
    reportedCount (runWithProvider m s img conf true) =
      detectionCount m img conf := by
  unfold reportedCount
  rw [runWithProvider_events]
  by_cases h : 0 < detectionCount m img conf
  · simp [h]
  · simp [h]
    omega

/-! ## Claims -/

/-- C1: for every image and thresholds 0.05 ≤ t1 < t2 ≤ 1, the
detection count the script reports for the same image at t2 is at most
the count reported at t1. -/
theorem C1_count_antitone_in_threshold (m : ProviderModel)
    (s : SessionState) (img : Image) (t1 t2 : ℚ)
    (h05 : 5 / 100 ≤ t1) (hlt : t1 < t2) (h1 : t2 ≤ 1) :
    reportedCount (runWithProvider m s img t2 true) ≤
      reportedCount (runWithProvider m s img t1 true) := by
  rw [reportedCount_runWithProvider, reportedCount_runWithProvider]
  exact detectionCount_antitone m img t1 t2 (le_of_lt hlt)

/-- A concrete provider model: two raw detections, scores 0.3 and 0.9. -/
def wModel : ProviderModel :=
  { raw := fun _ =>
      [{ box := (0, 0, 1, 1), cls := 0, score := 3 / 10 },
       { box := (0, 0, 2, 2), cls := 1, score := 9 / 10 }] }

/-- A concrete uploaded image. -/
def wImg : Image := { data := [7, 7, 7] }

/-- Witness for C1 at thresholds 0.25 < 0.5 on a concrete model. -/
theorem C1_witness :
    5 / 100 ≤ (25 / 100 : ℚ) ∧ (25 / 100 : ℚ) < 5 / 10 ∧ (5 / 10 : ℚ) ≤ 1 ∧
      reportedCount (runWithProvider wModel (some none) wImg (5 / 10) true) ≤
        reportedCount (runWithProvider wModel (some none) wImg (25 / 100) true) :=
  ⟨by norm_num, by norm_num, by norm_num,
    C1_count_antitone_in_threshold wModel (some none) wImg (25 / 100) (5 / 10)
      (by norm_num) (by norm_num) (by norm_num)⟩

/-- Value `len(results[0].boxes)` as the code reads it: 0 when the result
list is empty or its first element's boxes are `None` (src line 232). -/
def resultsCount (results : List ResultItem) : Nat :=
  match results with
  | [] => 0
  | r :: _ => (r.boxes.getD []).length

/-- The rerun input for the C2 counterexample: an image already stored
in the session, and an upload whose decode raises. -/
def badUploadInput : RerunInput :=
  { session := some (some wImg),
    uploadedFile := some (Except.error "invalid data"),
    confidence := DEFAULT_CONFIDENCE,
    detectButton := false,
    predictOutcome := Except.ok [] }

/-- C2 counterexample: with image `wImg` stored in the session and an
upload that fails to decode, the script does not leave the stored
Uploaded Image unchanged — line 209 overwrites it with `None`. -/
theorem C2_counterexample :
    (runScript (some wModel, none) badUploadInput).finalSession ≠
      badUploadInput.session := by
  decide

/-- C2 (amended): with a loaded model, an upload whose decode fails
yields the InvalidImage error event and sets the stored Uploaded Image
to `None` (clearing any prior image); the provider is not invoked. -/
theorem C2_invalid_upload_clears_image (m : ProviderModel)
    (s : SessionState) (e : String) (conf : ℚ) (b : Bool)
    (o : Except String (List ResultItem)) :
    UIEvent.uploadError (uploadErrorMsg e) ∈
        (runScript (some m, none)
          { session := s, uploadedFile := some (Except.error e),
            confidence := conf, detectButton := b,
            predictOutcome := o }).events ∧
      (runScript (some m, none)
          { session := s, uploadedFile := some (Except.error e),
            confidence := conf, detectButton := b,
            predictOutcome := o }).finalSession = some none ∧
      (runScript (some m, none)
          { session := s, uploadedFile := some (Except.error e),
            confidence := conf, detectButton := b,
            predictOutcome := o }).predictCalled = false := by
  unfold runScript
  simp

/-- C3: with a loaded model and no file in the uploader, the rerun —
whatever the prior session state and button value — emits exactly the
NoImageLoaded indicator and never invokes the Model Provider. -/
theorem C3_no_upload_no_predict (m : ProviderModel) (s : SessionState)
    (conf : ℚ) (b : Bool) (o : Except String (List ResultItem)) :
    (runScript (some m, none)
        { session := s, uploadedFile := none, confidence := conf,
          detectButton := b, predictOutcome := o }).events =
        [UIEvent.infoPleaseUpload] ∧
      (runScript (some m, none)
        { session := s, uploadedFile := none, confidence := conf,
          detectButton := b, predictOutcome := o }).predictCalled = false := by
  unfold runScript
  simp

/-- C4: when the provider call succeeds with zero detections, the rerun
emits the empty-result indicator `infoNoDetect` and no error event at
all — the empty outcome is distinct from every error outcome. -/
theorem C4_zero_detections_empty_indicator (m : ProviderModel)
    (s : SessionState) (img : Image) (conf : ℚ)
    (results : List ResultItem) (hz : resultsCount results = 0) :
    UIEvent.infoNoDetect ∈
        (runScript (some m, none)
          { session := s, uploadedFile := some (Except.ok img),
            confidence := conf, detectButton := true,
            predictOutcome := Except.ok results }).events ∧
      ∀ e ∈ (runScript (some m, none)
          { session := s, uploadedFile := some (Except.ok img),
            confidence := conf, detectButton := true,
            predictOutcome := Except.ok results }).events,
        e.isError = false := by
  unfold runScript detectBlock
  match results with
  | [] => simp [UIEvent.isError]
  | r :: rest =>
    match hb : r.boxes with
    | none => simp [hb, UIEvent.isError]
    | some bs =>
      have hlen : bs.length = 0 := by
        simp [resultsCount, hb] at hz
        simpa using hz
      simp [hb, hlen, UIEvent.isError]

/-- Witness for C4: threshold 1.0 on a model whose detections all have
confidence below 1 yields zero detections, hence the empty indicator
and no error. -/
theorem C4_witness :
    resultsCount (providerPredict wModel wImg 1) = 0 ∧
      (UIEvent.infoNoDetect ∈
          (runScript (some wModel, none)
            { session := some none,
              uploadedFile := some (Except.ok wImg),
              confidence := 1, detectButton := true,
              predictOutcome :=
                Except.ok (providerPredict wModel wImg 1) }).events ∧
        ∀ e ∈ (runScript (some wModel, none)
            { session := some none,
              uploadedFile := some (Except.ok wImg),
              confidence := 1, detectButton := true,
              predictOutcome :=
                Except.ok (providerPredict wModel wImg 1) }).events,
          e.isError = false) :=
  ⟨by simp [providerPredict, wModel, resultsCount, List.filter]; norm_num,
    C4_zero_detections_empty_indicator wModel (some none) wImg 1
      (providerPredict wModel wImg 1)
      (by simp [providerPredict, wModel, resultsCount, List.filter]; norm_num)⟩

/-- C7: with a loaded model, an upload that decodes successfully
replaces the stored Uploaded Image with the new image, whatever was
stored before — last write wins, nothing else is retained. -/
theorem C7_upload_last_write_wins (m : ProviderModel) (s : SessionState)
    (img : Image) (conf : ℚ) (b : Bool)
    (o : Except String (List ResultItem)) :
    (runScript (some m, none)
        { session := s, uploadedFile := some (Except.ok img),
          confidence := conf, detectButton := b,
          predictOutcome := o }).finalSession = some (some img) := by
  unfold runScript
  match b with
  | true => simp
  | false => simp

/-- C5: in a provider-contract rerun, any success message reports
exactly the number of detections with confidence ≥ the threshold, and
that number is ≥ 1; when that number is 0 no success message is
emitted — the empty-result indicator is, instead. -/
theorem C5_success_count_invariant (m : ProviderModel) (s : SessionState)
    (img : Image) (conf : ℚ) :
    (∀ n, UIEvent.successCount n ∈ (runWithProvider m s img conf true).events →
        n = detectionCount m img conf ∧ 1 ≤ n) ∧
      (detectionCount m img conf = 0 →
        (∀ n, UIEvent.successCount n ∉ (runWithProvider m s img conf true).events) ∧
          UIEvent.infoNoDetect ∈ (runWithProvider m s img conf true).events) := by
  constructor
  · intro n hn
    rw [runWithProvider_events] at hn
    by_cases h : 0 < detectionCount m img conf
    · simp [h] at hn
      exact ⟨hn, by omega⟩
    · simp [h] at hn
  · intro h0
    have h : ¬ 0 < detectionCount m img conf := by omega
    constructor
    · intro n hn
      rw [runWithProvider_events] at hn
      simp [h] at hn
    · rw [runWithProvider_events]
      simp [h]

/-- Witness for C5: at threshold 0.25 the concrete model keeps both of
its detections, and the success message indeed reports 2. -/
theorem C5_witness :
    UIEvent.successCount 2 ∈
        (runWithProvider wModel (some none) wImg DEFAULT_CONFIDENCE true).events ∧
      (2 = detectionCount wModel wImg DEFAULT_CONFIDENCE ∧ 1 ≤ 2) := by
  have hc : detectionCount wModel wImg DEFAULT_CONFIDENCE = 2 := by
    simp [detectionCount, wModel, DEFAULT_CONFIDENCE, List.filter]
    norm_num
  have hmem : UIEvent.successCount 2 ∈
      (runWithProvider wModel (some none) wImg DEFAULT_CONFIDENCE true).events := by
    rw [runWithProvider_events, hc]
    simp
  exact ⟨hmem,
    (C5_success_count_invariant wModel (some none) wImg DEFAULT_CONFIDENCE).1 2 hmem⟩

/-- The environment of the C6 witness: the model file is absent. -/
def envMissing : Env :=
  { pathExists := fun _ => false, yoloNew := fun _ => Except.error "unused" }

/-- C6: when the model path is missing at process start, the load fails
non-fatally — every rerun is still serviced (one output per input), each
shows only the ModelLoadFailed error and the detection-disabled warning,
and the provider is never invoked, for the whole process lifetime. -/
theorem C6_missing_model_disables_detection (env : Env)
    (inputs : List RerunInput) (h : env.pathExists MODEL_PATH = false) :
    (processOutputs env inputs).length = inputs.length ∧
      ∀ out ∈ processOutputs env inputs,
        out.events =
            [UIEvent.modelLoadError (missingModelMsg MODEL_PATH),
             UIEvent.modelLoadWarning] ∧
          out.predictCalled = false := by
  constructor
  · simp [processOutputs]
  · intro out hout
    simp only [processOutputs, List.mem_map] at hout
    obtain ⟨i, hi, rfl⟩ := hout
    unfold runScript load_yolo_model
    simp [h]

/-- Witness for C6: a concrete environment with no model file and one
rerun input. -/
theorem C6_witness :
    envMissing.pathExists MODEL_PATH = false ∧
      ((processOutputs envMissing [badUploadInput]).length =
          [badUploadInput].length ∧
        ∀ out ∈ processOutputs envMissing [badUploadInput],
          out.events =
              [UIEvent.modelLoadError (missingModelMsg MODEL_PATH),
               UIEvent.modelLoadWarning] ∧
            out.predictCalled = false) :=
  ⟨rfl, C6_missing_model_disables_detection envMissing [badUploadInput] rfl⟩

/-- C8: on a successful detection, the annotated image shown is the
Uploaded Image with the returned detections drawn onto a copy, and the
stored Uploaded Image is left unchanged by the call. -/
theorem C8_annotated_on_copy (m : ProviderModel) (s : SessionState)
    (img : Image) (conf : ℚ) (h : 0 < detectionCount m img conf) :
    UIEvent.showAnnotated
        (drawDetections img ((m.raw img).filter (fun d => conf ≤ d.score))) ∈
        (runWithProvider m s img conf true).events ∧
      (runWithProvider m s img conf true).finalSession = some (some img) := by
  constructor
  · rw [runWithProvider_events]
    simp [h]
  · unfold runWithProvider runScript
    simp

/-- Witness for C8 at the concrete model and threshold 0.25. -/
theorem C8_witness :
    0 < detectionCount wModel wImg DEFAULT_CONFIDENCE ∧
      (UIEvent.showAnnotated
          (drawDetections wImg
            ((wModel.raw wImg).filter (fun d => DEFAULT_CONFIDENCE ≤ d.score))) ∈
          (runWithProvider wModel (some none) wImg DEFAULT_CONFIDENCE true).events ∧
        (runWithProvider wModel (some none) wImg
            DEFAULT_CONFIDENCE true).finalSession = some (some wImg)) :=
  ⟨by simp [detectionCount, wModel, DEFAULT_CONFIDENCE, List.filter]; norm_num,
    C8_annotated_on_copy wModel (some none) wImg DEFAULT_CONFIDENCE
      (by simp [detectionCount, wModel, DEFAULT_CONFIDENCE, List.filter]; norm_num)⟩

/-- C9: when `model.predict` raises, the rerun emits exactly the
uploaded-image display and one error message carrying the exception
text — the failure is surfaced, not swallowed, and the script still
returns normally with the provider marked as invoked. -/
theorem C9_predict_failure_surfaced (m : ProviderModel) (s : SessionState)
    (img : Image) (conf : ℚ) (e : String) :
    (runScript (some m, none)
        { session := s, uploadedFile := some (Except.ok img),
          confidence := conf, detectButton := true,
          predictOutcome := Except.error e }).events =
        [UIEvent.showUploadedImage img,
         UIEvent.detectError (detectErrorMsg e)] ∧
      (runScript (some m, none)
        { session := s, uploadedFile := some (Except.ok img),
          confidence := conf, detectButton := true,
          predictOutcome := Except.error e }).predictCalled = true := by
  unfold runScript detectBlock
  simp

/-- C10: `load_yolo_model` always returns either a model with no error
message, or no model with a non-empty error message — never both,
never neither, and (being a total function) it never propagates an
exception. -/
theorem C10_load_total_exclusive (env : Env) (path : String) :
    (∃ m, load_yolo_model env path = (some m, none)) ∨
      (∃ msg, load_yolo_model env path = (none, some msg) ∧ 0 < msg.length) := by
  unfold load_yolo_model
  by_cases h : env.pathExists path = false
  · right
    refine ⟨missingModelMsg path, by simp [h], ?_⟩
    unfold missingModelMsg
    simp [String.length_append]
    left; left; decide
  · match hy : env.yoloNew path with
    | Except.ok m =>
      left
      exact ⟨m, by simp [h, hy]⟩
    | Except.error e =>
      right
      refine ⟨loadFailedMsg e, by simp [h, hy], ?_⟩
      unfold loadFailedMsg
      simp [String.length_append]
      left; left; decide
